import Mathlib

/-!
Shallow embedding of the realm multiplayer game server/client core
(movement, collision damage, abilities, rate limiting, delta snapshots,
clock translation), translated from the JavaScript sources under src/.

Time values are rationals (the code works in seconds, `Date.now() / 1000`,
with fractional constants such as `HIT_COOLDOWN = 0.4`). Grid coordinates
are integers. Player health is an integer (the code clamps it into
`[0, MAX_HEALTH]` with `Math.max`/`Math.min`).

The bookkeeping field `lastUpdate` (a wall-clock millisecond stamp used
only by the liveness sweep) is not modelled; no claim mentions it.
-/

namespace Realm

/-- Movement/dash directions, as the four action strings of the code. -/
inductive Dir where
  | MOVE_UP
  | MOVE_DOWN
  | MOVE_LEFT
  | MOVE_RIGHT
deriving DecidableEq, Repr

/-- Server-side participant record, from `createPlayer` in
src/server/player.js and src/unnamed/part_003. -/
structure Player where
  id : String
  x : Int
  y : Int
  targetX : Int
  targetY : Int
  health : Int
  maxHealth : Int
  dashCooldownEndTime : ℚ
  dashEndTime : ℚ
  dashDirection : Option Dir
  manaCooldownEndTime : ℚ
  isDashing : Bool
  isCastingMana : Bool
  manaCastEndTime : ℚ
  lastHitTime : ℚ
  isDead : Bool
  respawnTime : ℚ
deriving DecidableEq, Repr

-- Constants from src/server/config.js (third document in src/server/sync.js)
-- and src/client/config.js.

def WORLD_WIDTH : Int := 50
def WORLD_HEIGHT : Int := 50
def DASH_DURATION : ℚ := 3/10
def DASH_COOLDOWN : ℚ := 2
def MANA_COOLDOWN : ℚ := 7
def HIT_COOLDOWN : ℚ := 2/5
def MANA_CAST_TIME : ℚ := 7/10
def MAX_HEALTH : Int := 3
def RESPAWN_DELAY : ℚ := 5
/-- Server minimum milliseconds between moves (src/server/config.js). -/
def MOVE_RATE_LIMIT : ℚ := 70
def DASH_RATE_LIMIT : ℚ := 300
/-- Client minimum milliseconds between moves (src/client/config.js line 59). -/
def CLIENT_MOVE_RATE_LIMIT : ℚ := 100

/-- A wall grid: the module-level boolean `map` of src/unnamed/part_004,
viewed as a total function on (already bounds-checked) coordinates. -/
abbrev Grid := Int → Int → Bool

/-- `isWall` from src/unnamed/part_004: out-of-bounds coordinates count as
walls, otherwise the grid is consulted. -/
def isWall (grid : Grid) (x y : Int) : Bool :=
  if x < 0 || x ≥ WORLD_WIDTH || y < 0 || y ≥ WORLD_HEIGHT then true
  else grid x y

/-- Offsets on the edge of the square ring of the given radius, in the
iteration order of the nested loops of `findNearestValidPosition`
(dx outer from -radius to radius, dy inner). -/
def ringOffsets (radius : Nat) : List (Int × Int) :=
  (List.range (2 * radius + 1)).flatMap (fun i =>
    (List.range (2 * radius + 1)).filterMap (fun j =>
      let dx : Int := (i : Int) - (radius : Int)
      let dy : Int := (j : Int) - (radius : Int)
      if dx.natAbs = radius ∨ dy.natAbs = radius then some (dx, dy) else none))

/-- `findNearestValidPosition` from src/unnamed/part_004: the start cell if
valid, else the first non-wall cell on expanding square rings up to radius
10, else the map center. -/
def findNearestValidPosition (grid : Grid) (startX startY : Int) : Int × Int :=
  if isWall grid startX startY = false then (startX, startY)
  else
    match (List.range' 1 10).findSome? (fun radius =>
        (ringOffsets radius).findSome? (fun d =>
          if isWall grid (startX + d.1) (startY + d.2) = false then
            some (startX + d.1, startY + d.2)
          else none)) with
    | some p => p
    | none => (WORLD_WIDTH / 2, WORLD_HEIGHT / 2)

/-- The authoritative registry: participant id to record, in insertion
order (`gameState.players`, a JS Map). -/
abbrev GameState := List (String × Player)

def lookupP (gs : GameState) (pid : String) : Option Player :=
  (gs.find? (fun e => e.1 = pid)).map Prod.snd

/-- Apply an update to the record stored under the given id (JS mutates
the shared object in place). -/
def updateById (gs : GameState) (pid : String) (f : Player → Player) : GameState :=
  gs.map (fun e => if e.1 = pid then (e.1, f e.2) else e)

/-- `getPlayerAtPosition` from src/unnamed/part_003 (the current
server/player.js): finds a NON-DEAD player at the cell, skipping the
excluded id; dead players do not block movement. (An older copy in
src/server/player.js lacks the `isDead` skip.) -/
def getPlayerAtPosition (gs : GameState) (x y : Int) (excludePlayerId : Option String) : Option Player :=
  (gs.find? (fun e =>
    !(some e.1 = excludePlayerId) && !e.2.isDead && e.2.x = x && e.2.y = y)).map Prod.snd

/-- `dealDamageToPlayer` from src/server/player.js (identical in
src/unnamed/part_003): clamp health at 0, and on reaching 0 while not
already dead, mark dead and schedule the respawn. -/
def dealDamageToPlayer (target : Player) (now : ℚ) (damageAmount : Int := 1) : Player :=
  let target := { target with health := max 0 (target.health - damageAmount) }
  if target.health ≤ 0 && !target.isDead then
    { target with isDead := true, respawnTime := now + RESPAWN_DELAY }
  else
    target

/-- Core of `respawnPlayer` from src/server/player.js: relocate to the map
center (or nearest valid cell), restore health, clear death state. -/
def respawnReset (grid : Grid) (p : Player) : Player :=
  let cx : Int := WORLD_WIDTH / 2
  let cy : Int := WORLD_HEIGHT / 2
  let pos := if isWall grid cx cy then findNearestValidPosition grid cx cy else (cx, cy)
  { p with x := pos.1, y := pos.2, targetX := pos.1, targetY := pos.2,
           health := MAX_HEALTH, isDead := false, respawnTime := 0 }

/-- The deferred mana-cast completion from src/unnamed/part_002
(`processMana`'s setTimeout body): if the player still exists and is still
casting, heal one point capped at max and clear the casting flag. -/
def manaCastComplete (p : Player) : Player :=
  if p.isCastingMana then
    { p with health := min MAX_HEALTH (p.health + 1), isCastingMana := false }
  else p

/-- Server events relevant to the claims (socket emissions). -/
inductive ServerEvent where
  | playerHealthChanged (id : String) (health : Int)
deriving DecidableEq, Repr

/-- The `updateHealth` socket handler from src/server.js lines 294-303:
clamp the client-sent value into `[0, MAX_HEALTH]`, store it, broadcast
`playerHealthChanged`. No other field is touched; a missing player is a
no-op. -/
def updateHealth (gs : GameState) (pid : String) (value : Int) : GameState × List ServerEvent :=
  match lookupP gs pid with
  | none => (gs, [])
  | some _ =>
    (updateById gs pid (fun p => { p with health := max 0 (min MAX_HEALTH value) }),
     [.playerHealthChanged pid (max 0 (min MAX_HEALTH value))])

/-- Result record returned by `processDash`. -/
structure DashResult where
  success : Bool
  positionCorrected : Bool := false
deriving DecidableEq, Repr

/-- `processDash` from src/unnamed/part_002: reject when missing, dead, on
cooldown, already dashing, or standing in a wall (with self-heal);
otherwise start the speed-boost window with a locked direction. The
direction argument is already one of the four actions, so the JS
direction-validity check is vacuous here. -/
def processDash (grid : Grid) (gs : GameState) (pid : String) (direction : Dir) (now : ℚ) :
    DashResult × GameState :=
  match lookupP gs pid with
  | none => (⟨false, false⟩, gs)
  | some p =>
    if p.isDead then (⟨false, false⟩, gs)
    else if p.dashCooldownEndTime > now then (⟨false, false⟩, gs)
    else if p.dashEndTime ≠ 0 ∧ p.dashEndTime > now then (⟨false, false⟩, gs)
    else if isWall grid p.x p.y then
      let pos := findNearestValidPosition grid p.x p.y
      (⟨false, true⟩,
       updateById gs pid (fun q =>
         { q with x := pos.1, y := pos.2, targetX := pos.1, targetY := pos.2 }))
    else
      (⟨true, false⟩,
       updateById gs pid (fun q =>
         { q with isDashing := true,
                  dashEndTime := now + DASH_DURATION,
                  dashCooldownEndTime := now + DASH_COOLDOWN,
                  dashDirection := some direction }))

/-- `processMana` from src/unnamed/part_002 (the synchronous part; the
deferred completion is `manaCastComplete`): reject when missing, dead, on
cooldown, already casting, or at full health; otherwise start the cast. -/
def processMana (gs : GameState) (pid : String) (now : ℚ) : Bool × GameState :=
  match lookupP gs pid with
  | none => (false, gs)
  | some p =>
    if p.isDead then (false, gs)
    else if p.manaCooldownEndTime > now then (false, gs)
    else if p.isCastingMana then (false, gs)
    else if p.health ≥ MAX_HEALTH then (false, gs)
    else
      (true,
       updateById gs pid (fun q =>
         { q with isCastingMana := true,
                  manaCastEndTime := now + MANA_CAST_TIME,
                  manaCooldownEndTime := now + MANA_COOLDOWN }))

/-- Result record returned by `processMovement` (the JS result object;
absent fields default to false/none). -/
structure MoveResult where
  success : Bool
  blocked : Bool := false
  positionCorrected : Bool := false
  collision : Bool := false
  targetPlayerId : Option String := none
  targetPlayerHealth : Option Int := none
  damageDealt : Bool := false
  hitOnCooldown : Bool := false
deriving DecidableEq, Repr

/-- The movement direction-lock test during a dash window
(`isDashing && player.dashDirection && action !== player.dashDirection`
in `processMovement`); JS truthiness of `dashEndTime` and of the nullable
`dashDirection` is explicit. -/
def dashBlocked (p : Player) (action : Dir) (now : ℚ) : Bool :=
  decide (p.dashEndTime ≠ 0) && decide (p.dashEndTime > now) &&
  (match p.dashDirection with
   | some d => decide (action ≠ d)
   | none => false)

/-- The single-step target cell of a move action. -/
def moveTarget (x y : Int) (action : Dir) : Int × Int :=
  match action with
  | .MOVE_UP => (x, y - 1)
  | .MOVE_DOWN => (x, y + 1)
  | .MOVE_LEFT => (x - 1, y)
  | .MOVE_RIGHT => (x + 1, y)

/-- `processMovement` from src/server/movement.js (second document in
src/server/sync.js): reject when dead, casting, or moving off the dash
direction while dashing; self-heal a wall-trapped mover; then either
collide with a live occupant of the target cell (damaging it only off hit
cooldown) or relocate into it, re-checking the landing cell. -/
def processMovement (grid : Grid) (gs : GameState) (pid : String) (action : Dir) (now : ℚ) :
    MoveResult × GameState :=
  match lookupP gs pid with
  | none => ({ success := false }, gs)
  | some p =>
    if p.isDead then ({ success := false }, gs)
    else if p.isCastingMana then ({ success := false }, gs)
    else if dashBlocked p action now = true then
      ({ success := false, blocked := true }, gs)
    else if isWall grid p.x p.y then
      let pos := findNearestValidPosition grid p.x p.y
      ({ success := false, positionCorrected := true },
       updateById gs pid (fun q =>
         { q with x := pos.1, y := pos.2, targetX := pos.1, targetY := pos.2 }))
    else
      let newX := (moveTarget p.x p.y action).1
      let newY := (moveTarget p.x p.y action).2
      if newX ≥ 0 ∧ newX < WORLD_WIDTH ∧ newY ≥ 0 ∧ newY < WORLD_HEIGHT ∧
         isWall grid newX newY = false then
        match getPlayerAtPosition gs newX newY (some pid) with
        | some victim =>
          if now - p.lastHitTime ≥ HIT_COOLDOWN then
            let victim' := dealDamageToPlayer victim now 1
            let gs' := updateById gs victim.id (fun _ => victim')
            let gs'' := updateById gs' pid (fun q => { q with lastHitTime := now })
            ({ success := false, collision := true,
               targetPlayerId := some victim.id,
               targetPlayerHealth := some victim'.health,
               damageDealt := true }, gs'')
          else
            ({ success := false, collision := true,
               targetPlayerId := some victim.id,
               targetPlayerHealth := some victim.health,
               damageDealt := false, hitOnCooldown := true }, gs)
        | none =>
          let gs' := updateById gs pid (fun q =>
            { q with x := newX, y := newY, targetX := newX, targetY := newY })
          -- Final validation: ensure we didn't move into a wall
          if isWall grid newX newY then
            let pos := findNearestValidPosition grid newX newY
            ({ success := false, positionCorrected := true },
             updateById gs' pid (fun q =>
               { q with x := pos.1, y := pos.2, targetX := pos.1, targetY := pos.2 }))
          else
            ({ success := true }, gs')
      else
        ({ success := false }, gs)

/-- Per-connection move-limiter closure state (`lastMoveTime`,
`moveCount`, `moveCountResetTime`), times in milliseconds. -/
structure RateLimiterState where
  lastMoveTime : ℚ
  moveCount : Nat
  moveCountResetTime : ℚ
deriving DecidableEq, Repr

/-- The server move rate limiter from the `socket.on` move handler,
src/server.js lines 136-153: reset the trailing 1-second window counter,
cap at 10 moves per window, and enforce the minimum interval
`MOVE_RATE_LIMIT` (quartered while the player is dashing). Returns whether
the command passes, and the updated limiter state. -/
def serverMoveGate (st : RateLimiterState) (now : ℚ) (isDashing : Bool) :
    Bool × RateLimiterState :=
  let effectiveRateLimit := if isDashing then MOVE_RATE_LIMIT / 4 else MOVE_RATE_LIMIT
  let st :=
    if now - st.moveCountResetTime ≥ 1000 then
      { st with moveCount := 0, moveCountResetTime := now }
    else st
  if st.moveCount ≥ 10 then (false, st)
  else if now - st.lastMoveTime < effectiveRateLimit then (false, st)
  else (true, { st with lastMoveTime := now, moveCount := st.moveCount + 1 })

/-- The client move rate limiter from `executeMovement`,
src/client/utils.js lines 104-128: the same window/interval structure but
with `CLIENT_MOVE_RATE_LIMIT` as the minimum interval (quartered while
dashing). -/
def clientMoveGate (st : RateLimiterState) (now : ℚ) (isDashing : Bool) :
    Bool × RateLimiterState :=
  let effectiveRateLimit := if isDashing then CLIENT_MOVE_RATE_LIMIT / 4 else CLIENT_MOVE_RATE_LIMIT
  let st :=
    if now - st.moveCountResetTime ≥ 1000 then
      { st with moveCount := 0, moveCountResetTime := now }
    else st
  if st.moveCount ≥ 10 then (false, st)
  else if now - st.lastMoveTime < effectiveRateLimit then (false, st)
  else (true, { st with lastMoveTime := now, moveCount := st.moveCount + 1 })

/-- `serverTimeToClient` from src/unnamed/part_000 (client utils): the two
clock reads (`performance.now()/1000` and `Date.now()/1000`) are passed in
as `clientNow` and `serverNowEstimate`. -/
def serverTimeToClient (serverTime clientNow serverNowEstimate : ℚ) : ℚ :=
  if serverTime ≤ 0 then 0
  else clientNow + max 0 (serverTime - serverNowEstimate)

/-- Per-observer cached last-sent fields for one other participant: the
`currentState` record built in the sync-interval callback of src/server.js
lines 345-359. Note it has NO `dashEndTime` field. -/
structure CachedState where
  x : Int
  y : Int
  targetX : Int
  targetY : Int
  health : Int
  isDashing : Bool
  isCastingMana : Bool
  isDead : Bool
  dashCooldownEndTime : ℚ
  manaCooldownEndTime : ℚ
deriving DecidableEq, Repr

/-- One entry of the outgoing diff (the `playerData` object of
`getGameStateSnapshotDelta`). `none` in an optional field means the key
was not added to the object. The inner option of `dashDirection` is the
JS null sent at the dash-expiry edge. -/
structure PlayerDelta where
  id : String
  x : Int
  y : Int
  targetX : Int
  targetY : Int
  health : Int
  isDashing : Bool
  isCastingMana : Bool
  dashCooldownEndTime : Option ℚ := none
  dashEndTime : Option ℚ := none
  dashDirection : Option (Option Dir) := none
  manaCooldownEndTime : Option ℚ := none
  manaCastEndTime : Option ℚ := none
deriving DecidableEq, Repr

/-- The encoder's per-participant dash-cooldown expiry test
(`dashCooldownWasActive && !dashCooldownIsActive` in
`getGameStateSnapshotDelta`). The cached value is compared against 0 with
JS truthiness, the live value against `now`. -/
def dashCooldownExpiredB (lastState : Option CachedState) (p : Player) (now : ℚ) : Bool :=
  (match lastState with
   | some l => decide (l.dashCooldownEndTime ≠ 0) && decide (l.dashCooldownEndTime > 0)
   | none => false) && !(decide (p.dashCooldownEndTime > now))

/-- The encoder's mana-cooldown expiry test, same shape as the dash one. -/
def manaCooldownExpiredB (lastState : Option CachedState) (p : Player) (now : ℚ) : Bool :=
  (match lastState with
   | some l => decide (l.manaCooldownEndTime ≠ 0) && decide (l.manaCooldownEndTime > 0)
   | none => false) && !(decide (p.manaCooldownEndTime > now))

/-- The `hasChanged` test of `getGameStateSnapshotDelta`: the comparison
fields are read from `playerData`, which was built BEFORE the `isDashing`
refresh, so `p.isDashing` here is the stale flag of the previous tick.
`lastState.dashEndTime` is a read of a field the cached record never
stores (JS `undefined`), so the `dashEndExpired` disjunct is constantly
false and appears as the literal `false` below. -/
def hasChangedB (lastState : Option CachedState) (p : Player) (now : ℚ) : Bool :=
  match lastState with
  | none => true
  | some l =>
    decide (l.x ≠ p.x) || decide (l.y ≠ p.y) ||
    decide (l.targetX ≠ p.targetX) || decide (l.targetY ≠ p.targetY) ||
    decide (l.health ≠ p.health) ||
    decide (l.isDashing ≠ p.isDashing) ||
    decide (l.isCastingMana ≠ p.isCastingMana) ||
    dashCooldownExpiredB lastState p now || false ||
    manaCooldownExpiredB lastState p now

/-- The diff entry pushed for a changed participant: base volatile fields
plus the conditionally-included timestamp fields, exactly as
`getGameStateSnapshotDelta` builds `playerData`. The `isDashing` sent is
the stale pre-refresh flag; the timestamp conditions read fields the
refresh does not touch. -/
def deltaFields (lastState : Option CachedState) (p : Player) (now : ℚ) : PlayerDelta :=
  let playerData : PlayerDelta :=
    { id := p.id, x := p.x, y := p.y, targetX := p.targetX, targetY := p.targetY,
      health := p.health, isDashing := p.isDashing, isCastingMana := p.isCastingMana }
  let playerData :=
    if p.dashCooldownEndTime > now then
      { playerData with dashCooldownEndTime := some p.dashCooldownEndTime }
    else if dashCooldownExpiredB lastState p now then
      { playerData with dashCooldownEndTime := some 0 }
    else playerData
  let playerData :=
    if p.dashEndTime > now then
      { playerData with dashEndTime := some p.dashEndTime,
                        dashDirection := some p.dashDirection }
    else if p.dashEndTime > 0 ∧ p.dashEndTime ≤ now then
      -- Dash just expired, send 0 to clear
      { playerData with dashEndTime := some 0, dashDirection := some none }
    else playerData
  let playerData :=
    if p.manaCooldownEndTime > now then
      { playerData with manaCooldownEndTime := some p.manaCooldownEndTime }
    else if manaCooldownExpiredB lastState p now then
      { playerData with manaCooldownEndTime := some 0 }
    else playerData
  if p.isCastingMana ∧ p.manaCastEndTime > now then
    { playerData with manaCastEndTime := some p.manaCastEndTime }
  else playerData

/-- The per-participant body of `getGameStateSnapshotDelta`
(src/server/sync.js lines 44-125): the diff entry to push (when the
participant changed) and the participant record with its `isDashing` flag
refreshed from `dashEndTime` (the one in-place mutation the encoder
performs; the refresh only changes `isDashing`, which the included-field
conditions never read, so the original record is passed to them). -/
def deltaForPlayer (lastState : Option CachedState) (p : Player) (now : ℚ) :
    Option PlayerDelta × Player :=
  (if hasChangedB lastState p now then some (deltaFields lastState p now) else none,
   { p with isDashing := decide (p.dashEndTime ≠ 0) && decide (p.dashEndTime > now) })

/-- `lastSentState.get(id)`: fetch an observer's cached record for a
participant. -/
def lookupC (cache : List (String × CachedState)) (pid : String) : Option CachedState :=
  (cache.find? (fun c => c.1 = pid)).map Prod.snd

/-- `getGameStateSnapshotDelta` (src/server/sync.js lines 40-129) over a
registry: every participant other than the observer contributes a diff
entry when changed; participants are returned with their `isDashing`
refresh applied. -/
def getGameStateSnapshotDelta (gs : GameState) (excludePlayerId : String)
    (lastSentState : List (String × CachedState)) (now : ℚ) :
    List PlayerDelta × GameState :=
  let step := gs.map (fun e =>
    if e.1 = excludePlayerId then (none, e)
    else
      let r := deltaForPlayer (lookupC lastSentState e.1) e.2 now
      (r.1, (e.1, r.2)))
  ((step.filterMap Prod.fst), step.map Prod.snd)

/-- The cache record written for a participant after it was included in a
diff: timestamp fields are stored clamped to 0 once expired
(src/server.js lines 348-359), and `isDashing` is the refreshed flag. -/
def cacheEntry (p : Player) (now : ℚ) : CachedState :=
  { x := p.x, y := p.y, targetX := p.targetX, targetY := p.targetY,
    health := p.health, isDashing := p.isDashing, isCastingMana := p.isCastingMana,
    isDead := p.isDead,
    dashCooldownEndTime := if p.dashCooldownEndTime > now then p.dashCooldownEndTime else 0,
    manaCooldownEndTime := if p.manaCooldownEndTime > now then p.manaCooldownEndTime else 0 }

/-- Store (or insert) a cache entry under an id. -/
def setCache (cache : List (String × CachedState)) (pid : String) (c : CachedState) :
    List (String × CachedState) :=
  if cache.any (fun e => e.1 = pid) then
    cache.map (fun e => if e.1 = pid then (e.1, c) else e)
  else cache ++ [(pid, c)]

/-- The cache refresh of the sync-interval callback (src/server.js lines
342-366): performed only when the snapshot is non-empty, and only for
participants that appeared in this diff or have no cache entry yet. -/
def updateLastSentState (gs : GameState) (excludePlayerId : String)
    (lastSentState : List (String × CachedState)) (deltas : List PlayerDelta) (now : ℚ) :
    List (String × CachedState) :=
  if deltas.isEmpty then lastSentState
  else
    gs.foldl (fun cache e =>
      if e.1 = excludePlayerId then cache
      else if deltas.any (fun d => d.id = e.1) ||
              !(cache.any (fun c => c.1 = e.1)) then
        setCache cache e.1 (cacheEntry e.2 now)
      else cache) lastSentState

/-- One observer sync tick: compute the delta snapshot, then refresh the
observer's cache. Returns (emitted diff, refreshed registry, new cache). -/
def syncStep (gs : GameState) (excludePlayerId : String)
    (lastSentState : List (String × CachedState)) (now : ℚ) :
    List PlayerDelta × GameState × List (String × CachedState) :=
  let r := getGameStateSnapshotDelta gs excludePlayerId lastSentState now
  (r.1, r.2, updateLastSentState r.2 excludePlayerId lastSentState r.1 now)

/-- A baseline freshly-spawned live participant (the `createPlayer`
record shape) used as concrete witness data. -/
def samplePlayer (i : String) (px py : Int) : Player :=
  { id := i, x := px, y := py, targetX := px, targetY := py,
    health := 3, maxHealth := 3,
    dashCooldownEndTime := 0, dashEndTime := 0, dashDirection := none,
    manaCooldownEndTime := 0, isDashing := false, isCastingMana := false,
    manaCastEndTime := 0, lastHitTime := 0, isDead := false, respawnTime := 0 }

/-- An all-open wall grid for concrete witnesses. -/
def sampleGrid : Grid := fun _ _ => false

/-- A participant with both ability cooldowns still running until time 12,
used as concrete witness data. -/
def cooldownPlayer : Player :=
  { samplePlayer "a" 5 5 with dashCooldownEndTime := 12, manaCooldownEndTime := 12 }

/-- The field updates a successful `processDash` applies to the dashing
player's record. -/
def dashActivate (p : Player) (d : Dir) (now : ℚ) : Player :=
  { p with isDashing := true, dashEndTime := now + DASH_DURATION,
           dashCooldownEndTime := now + DASH_COOLDOWN, dashDirection := some d }

/-- The health/death coupling the spec asserts: a participant is marked
dead exactly when its health is zero (respawn completion resets health to
max and clears the flag in the same step, so the two sides change
together). -/
def healthDeathInv (p : Player) : Prop :=
  p.isDead = true ↔ p.health = 0

/-- A participant whose dash window ends at 10.3 (with the dash cooldown
still running until 12): the state right after a dash near time 10,
concrete data for the delta-encoder counterexample. -/
def dashExpiryPlayer : Player :=
  { samplePlayer "p" 5 5 with isDashing := true, dashEndTime := mkRat 103 10,
                              dashDirection := some Dir.MOVE_RIGHT, dashCooldownEndTime := 12 }

/-- A participant whose dash cooldown ended at 10.1: concrete data for
the cooldown expiry-telegraph witness (observed at tick time 10.5). -/
def cooldownExpiredPlayer : Player :=
  { samplePlayer "p" 5 5 with dashCooldownEndTime := mkRat 101 10 }

/-- The observer's cached record for `cooldownExpiredPlayer` from a tick
when the dash cooldown was still active. -/
def cooldownActiveCache : CachedState :=
  { x := 5, y := 5, targetX := 5, targetY := 5, health := 3, isDashing := false,
    isCastingMana := false, isDead := false, dashCooldownEndTime := mkRat 101 10,
    manaCooldownEndTime := 0 }

/-! ### Helper lemmas and sample data -/

/-- Looking up after an id-keyed update: the updated id is mapped, others
are untouched. -/
theorem lookupP_updateById (gs : GameState) (pid j : String) (f : Player → Player) :
    lookupP (updateById gs pid f) j =
      if j = pid then (lookupP gs j).map f else lookupP gs j := by
  induction gs with
  | nil => simp [lookupP, updateById]
  | cons e t ih =>
    unfold lookupP updateById at *
    rw [List.map_cons]
    by_cases hep : e.1 = pid
    · rw [if_pos hep]
      by_cases hej : e.1 = j
      · have hjp : j = pid := by rw [← hej, hep]
        rw [List.find?_cons_of_pos _ (by simpa using hej), if_pos hjp,
            List.find?_cons_of_pos _ (by simpa using hej)]
        rfl
      · have hjp : ¬(j = pid) := fun h => hej (by rw [hep, ← h])
        rw [List.find?_cons_of_neg _ (by simpa using hej), if_neg hjp,
            List.find?_cons_of_neg _ (by simpa using hej)]
        simpa [if_neg hjp] using ih
    · rw [if_neg hep]
      by_cases hej : e.1 = j
      · have hjp : ¬(j = pid) := fun h => hep (by rw [hej, h])
        rw [List.find?_cons_of_pos _ (by simpa using hej), if_neg hjp,
            List.find?_cons_of_pos _ (by simpa using hej)]
      · rw [List.find?_cons_of_neg _ (by simpa using hej),
            List.find?_cons_of_neg _ (by simpa using hej)]
        exact ih

/-- Projection of the dash-window fields out of a diff entry: they are
driven purely by where `dashEndTime` stands relative to `now`. -/
theorem deltaFields_dash (last : Option CachedState) (p : Player) (now : ℚ) :
    ((deltaFields last p now).dashEndTime, (deltaFields last p now).dashDirection)
      = if p.dashEndTime > now then (some p.dashEndTime, some p.dashDirection)
        else if p.dashEndTime > 0 ∧ p.dashEndTime ≤ now then (some 0, some none)
        else (none, none) := by
  simp only [deltaFields]
  split_ifs <;> rfl

/-- Projection of the dash-cooldown field out of a diff entry. -/
theorem deltaFields_dashCooldown (last : Option CachedState) (p : Player) (now : ℚ) :
    (deltaFields last p now).dashCooldownEndTime
      = if p.dashCooldownEndTime > now then some p.dashCooldownEndTime
        else if dashCooldownExpiredB last p now then some 0 else none := by
  simp only [deltaFields]
  split_ifs <;> rfl

/-- Projection of the mana-cooldown field out of a diff entry. -/
theorem deltaFields_manaCooldown (last : Option CachedState) (p : Player) (now : ℚ) :
    (deltaFields last p now).manaCooldownEndTime
      = if p.manaCooldownEndTime > now then some p.manaCooldownEndTime
        else if manaCooldownExpiredB last p now then some 0 else none := by
  simp only [deltaFields]
  split_ifs <;> rfl

/-! ### Claims -/

/-- Claim C8: for every positive absolute server timestamp, the client's
translated local deadline equals
clientNow + max(0, serverTimestamp - serverNowEstimate), and is never
earlier than clientNow (`serverTimeToClient`, src/unnamed/part_000). -/
theorem C8_clock_translation (serverTime clientNow serverNowEstimate : ℚ)
    (h : 0 < serverTime) :
    serverTimeToClient serverTime clientNow serverNowEstimate
        = clientNow + max 0 (serverTime - serverNowEstimate) ∧
      clientNow ≤ serverTimeToClient serverTime clientNow serverNowEstimate := by
  unfold serverTimeToClient
  rw [if_neg (not_le.mpr h)]
  exact ⟨rfl, le_add_of_nonneg_right (le_max_left 0 _)⟩

-- Witness for C8 at serverTime 5, clientNow 100, serverNowEstimate 3.
unseal Rat.add Rat.sub Rat.mul Rat.inv in
theorem C8_clock_translation_witness :
    (0 : ℚ) < 5 ∧
      (serverTimeToClient 5 100 3 = 100 + max 0 (5 - 3) ∧
        (100 : ℚ) ≤ serverTimeToClient 5 100 3) :=
  ⟨by decide, C8_clock_translation 5 100 3 (by decide)⟩

/-- Claim C10: `updateHealth` on an existing participant sets health to
max(0, min(MAX_HEALTH, v)), leaves every other field of every record
unchanged, and broadcasts a health-changed event; on a non-existent
participant it changes nothing and emits nothing. -/
theorem C10_updateHealth_spec (gs : GameState) (pid : String) (v : Int) :
    (∀ p, lookupP gs pid = some p →
        lookupP (updateHealth gs pid v).1 pid
            = some { p with health := max 0 (min MAX_HEALTH v) } ∧
          (∀ j, j ≠ pid → lookupP (updateHealth gs pid v).1 j = lookupP gs j) ∧
          (updateHealth gs pid v).2
            = [.playerHealthChanged pid (max 0 (min MAX_HEALTH v))]) ∧
      (lookupP gs pid = none → updateHealth gs pid v = (gs, [])) := by
  constructor
  · intro p hp
    refine ⟨?_, ?_, ?_⟩
    · simp [updateHealth, hp, lookupP_updateById]
    · intro j hj
      simp [updateHealth, hp, lookupP_updateById, hj]
    · simp [updateHealth, hp]
  · intro hnone
    simp [updateHealth, hnone]

-- Witness for C10 on a one-player registry, clamping a negative value.
theorem C10_updateHealth_spec_witness :
    lookupP (updateHealth [("a", samplePlayer "a" 5 5)] "a" (-2)).1 "a"
        = some { samplePlayer "a" 5 5 with health := max 0 (min MAX_HEALTH (-2)) } ∧
      (updateHealth [("a", samplePlayer "a" 5 5)] "a" (-2)).2
        = [.playerHealthChanged "a" (max 0 (min MAX_HEALTH (-2)))] :=
  ⟨((C10_updateHealth_spec [("a", samplePlayer "a" 5 5)] "a" (-2)).1
      (samplePlayer "a" 5 5) (by decide)).1,
   ((C10_updateHealth_spec [("a", samplePlayer "a" 5 5)] "a" (-2)).1
      (samplePlayer "a" 5 5) (by decide)).2.2⟩

/-- Claim C9: a dash command while the dash cooldown is active, and a cast
command while the mana cooldown is active, are rejected and leave the
whole registry (in particular dashCooldownEndTime, manaCooldownEndTime and
health) unchanged, no matter how many times the command is repeated before
the cooldown elapses. -/
theorem C9_cooldown_rejection (grid : Grid) (gs : GameState) (pid : String) (d : Dir)
    (p : Player) (hp : lookupP gs pid = some p) :
    (∀ now, p.dashCooldownEndTime > now →
        processDash grid gs pid d now = (⟨false, false⟩, gs)) ∧
      (∀ now, p.manaCooldownEndTime > now → processMana gs pid now = (false, gs)) ∧
      (∀ times : List ℚ, (∀ t ∈ times, p.dashCooldownEndTime > t) →
        times.foldl (fun g t => (processDash grid g pid d t).2) gs = gs) ∧
      (∀ times : List ℚ, (∀ t ∈ times, p.manaCooldownEndTime > t) →
        times.foldl (fun g t => (processMana g pid t).2) gs = gs) := by
  have hdash : ∀ now, p.dashCooldownEndTime > now →
      processDash grid gs pid d now = (⟨false, false⟩, gs) := by
    intro now h
    simp only [processDash, hp]
    by_cases h1 : p.isDead <;> simp [h1, h]
  have hmana : ∀ now, p.manaCooldownEndTime > now →
      processMana gs pid now = (false, gs) := by
    intro now h
    simp only [processMana, hp]
    by_cases h1 : p.isDead <;> simp [h1, h]
  refine ⟨hdash, hmana, ?_, ?_⟩
  · intro times htimes
    induction times with
    | nil => rfl
    | cons t ts ih =>
      rw [List.foldl_cons, hdash t (htimes t (List.mem_cons_self t ts))]
      exact ih (fun u hu => htimes u (List.mem_cons_of_mem t hu))
  · intro times htimes
    induction times with
    | nil => rfl
    | cons t ts ih =>
      rw [List.foldl_cons, hmana t (htimes t (List.mem_cons_self t ts))]
      exact ih (fun u hu => htimes u (List.mem_cons_of_mem t hu))

-- Witness for C9: cooldowns end at time 12, commands repeated at 10, 10.5, 11.
unseal Rat.add Rat.sub Rat.mul Rat.inv in
theorem C9_cooldown_rejection_witness :
    processDash sampleGrid [("a", cooldownPlayer)] "a" Dir.MOVE_RIGHT 10
        = (⟨false, false⟩, [("a", cooldownPlayer)]) ∧
      [(10 : ℚ), mkRat 21 2, 11].foldl
          (fun g t => (processMana g "a" t).2) [("a", cooldownPlayer)]
        = [("a", cooldownPlayer)] :=
  ⟨((C9_cooldown_rejection sampleGrid [("a", cooldownPlayer)] "a" Dir.MOVE_RIGHT
        cooldownPlayer (by decide)).1 10 (by decide)),
   ((C9_cooldown_rejection sampleGrid [("a", cooldownPlayer)] "a" Dir.MOVE_RIGHT
        cooldownPlayer (by decide)).2.2.2
      [(10 : ℚ), mkRat 21 2, 11] (by decide))⟩

/-- Claim C7: for a participant standing on a valid cell, a move whose
target cell is out of bounds or a wall is rejected and leaves the whole
registry (in particular the mover's position and target) unchanged. -/
theorem C7_wall_move_rejected (grid : Grid) (gs : GameState) (pid : String) (a : Dir)
    (now : ℚ) (p : Player) (hp : lookupP gs pid = some p)
    (hcur : isWall grid p.x p.y = false)
    (htgt : (moveTarget p.x p.y a).1 < 0 ∨ (moveTarget p.x p.y a).1 ≥ WORLD_WIDTH ∨
      (moveTarget p.x p.y a).2 < 0 ∨ (moveTarget p.x p.y a).2 ≥ WORLD_HEIGHT ∨
      isWall grid (moveTarget p.x p.y a).1 (moveTarget p.x p.y a).2 = true) :
    (processMovement grid gs pid a now).1.success = false ∧
      (processMovement grid gs pid a now).2 = gs := by
  have hcond : ¬((moveTarget p.x p.y a).1 ≥ 0 ∧ (moveTarget p.x p.y a).1 < WORLD_WIDTH ∧
      (moveTarget p.x p.y a).2 ≥ 0 ∧ (moveTarget p.x p.y a).2 < WORLD_HEIGHT ∧
      isWall grid (moveTarget p.x p.y a).1 (moveTarget p.x p.y a).2 = false) := by
    rintro ⟨hx0, hxw, hy0, hyw, hw⟩
    rcases htgt with h | h | h | h | h
    · exact absurd hx0 (not_le.mpr h)
    · exact absurd hxw (not_lt.mpr h)
    · exact absurd hy0 (not_le.mpr h)
    · exact absurd hyw (not_lt.mpr h)
    · rw [hw] at h; exact Bool.false_ne_true h
  simp only [processMovement, hp]
  split_ifs with h1 h2 h3 h4 h5 <;>
    first
      | exact ⟨rfl, rfl⟩
      | (rw [hcur] at h4; exact absurd h4 Bool.false_ne_true)
      | exact absurd h5 hcond

-- Witness for C7: mover at (0, 5) on an open grid moving left, off the map.
theorem C7_wall_move_rejected_witness :
    (processMovement sampleGrid [("a", samplePlayer "a" 0 5)] "a" Dir.MOVE_LEFT 10).1.success
        = false ∧
      (processMovement sampleGrid [("a", samplePlayer "a" 0 5)] "a" Dir.MOVE_LEFT 10).2
        = [("a", samplePlayer "a" 0 5)] :=
  C7_wall_move_rejected sampleGrid [("a", samplePlayer "a" 0 5)] "a" Dir.MOVE_LEFT 10
    (samplePlayer "a" 0 5) (by decide) (by decide) (by decide)

-- Counterexample for C5: a successful dash at time 10 leaves the server
-- record with dashDirection still set, although dashEndTime = 10.3 has
-- elapsed by observation time 11. The record is never cleaned up.
unseal Rat.add Rat.sub Rat.mul Rat.inv in
theorem C5_counterexample :
    (processDash sampleGrid [("a", samplePlayer "a" 5 5)] "a" Dir.MOVE_RIGHT 10).2
        = [("a", dashActivate (samplePlayer "a" 5 5) Dir.MOVE_RIGHT 10)] ∧
      (dashActivate (samplePlayer "a" 5 5) Dir.MOVE_RIGHT 10).dashEndTime ≤ 11 ∧
      (dashActivate (samplePlayer "a" 5 5) Dir.MOVE_RIGHT 10).dashDirection ≠ none :=
  ⟨by decide, by decide, by decide⟩

/-- Claim C5 (amended): a successful dash sets `dashDirection` together
with an active `dashEndTime`; the server record itself never clears
`dashDirection` when the window elapses — only the data REPORTED to
observers satisfies the invariant: a diff entry carries a direction only
while `dashEndTime > now`, and carries an explicit null direction (with
`dashEndTime = 0`) at the expiry edge. -/
theorem C5_dashDirection_reporting :
    (∀ (grid : Grid) (gs : GameState) (pid : String) (d : Dir) (now : ℚ) (p : Player),
        lookupP gs pid = some p → p.isDead = false →
        ¬(p.dashCooldownEndTime > now) → ¬(p.dashEndTime ≠ 0 ∧ p.dashEndTime > now) →
        isWall grid p.x p.y = false →
        lookupP (processDash grid gs pid d now).2 pid = some (dashActivate p d now) ∧
          now < (dashActivate p d now).dashEndTime) ∧
      (∀ (last : Option CachedState) (p : Player) (now : ℚ) (pd : PlayerDelta),
        (deltaForPlayer last p now).1 = some pd →
        (∀ dir, pd.dashDirection = some (some dir) → p.dashEndTime > now) ∧
          (p.dashEndTime > 0 ∧ ¬(p.dashEndTime > now) →
            pd.dashDirection = some none ∧ pd.dashEndTime = some 0)) := by
  constructor
  · intro grid gs pid d now p hp hdead hcd hde hw
    have h1 : now < (dashActivate p d now).dashEndTime := by
      have h2 : (0 : ℚ) < DASH_DURATION := by norm_num [DASH_DURATION]
      simp only [dashActivate]
      linarith
    refine ⟨?_, h1⟩
    simp only [processDash, hp, hdead, hcd, hde, hw]
    simp [lookupP_updateById, hp, dashActivate]
  · intro last p now pd hpd
    unfold deltaForPlayer at hpd
    by_cases hch : hasChangedB last p now = true
    · rw [if_pos hch] at hpd
      have hpd' : deltaFields last p now = pd := by simpa using hpd
      subst hpd'
      have hdash := deltaFields_dash last p now
      constructor
      · intro dir hdir
        by_contra hact
        rw [if_neg hact] at hdash
        rw [Prod.ext_iff] at hdash
        rcases hdash with ⟨-, hdir'⟩
        rw [hdir] at hdir'
        split_ifs at hdir' <;> simp at hdir'
      · rintro ⟨hpos, hnact⟩
        rw [if_neg hnact, if_pos ⟨hpos, not_lt.mp hnact⟩, Prod.ext_iff] at hdash
        exact ⟨hdash.2, hdash.1⟩
    · rw [if_neg hch] at hpd
      simp at hpd

-- Witness for C5: a dash at time 10 from the baseline player, and the
-- expiry-edge diff entry for a player whose dash window 10.3 has elapsed
-- by tick time 10.5.
unseal Rat.add Rat.sub Rat.mul Rat.inv in
theorem C5_dashDirection_reporting_witness :
    lookupP (processDash sampleGrid [("a", samplePlayer "a" 5 5)] "a" Dir.MOVE_RIGHT 10).2 "a"
        = some (dashActivate (samplePlayer "a" 5 5) Dir.MOVE_RIGHT 10) ∧
      (10 : ℚ) < (dashActivate (samplePlayer "a" 5 5) Dir.MOVE_RIGHT 10).dashEndTime :=
  (C5_dashDirection_reporting.1 sampleGrid [("a", samplePlayer "a" 5 5)] "a" Dir.MOVE_RIGHT 10
    (samplePlayer "a" 5 5) (by decide) (by decide) (by decide) (by decide) (by decide))

-- Counterexample for C3: with identical fresh limiter states, a move
-- arriving 80 ms after the previous accepted one (not dashing) is
-- accepted by the server gate (limit 70 ms) but rejected by the client
-- gate (limit 100 ms).
unseal Rat.add Rat.sub Rat.mul Rat.inv in
theorem C3_counterexample :
    (serverMoveGate ⟨0, 0, 0⟩ 80 false).1 = true ∧
      (clientMoveGate ⟨0, 0, 0⟩ 80 false).1 = false :=
  ⟨by decide, by decide⟩

/-- Explicit acceptance condition of the server move gate. -/
theorem serverMoveGate_accepts (st : RateLimiterState) (now : ℚ) (dashing : Bool) :
    (serverMoveGate st now dashing).1 = true ↔
      ((if now - st.moveCountResetTime ≥ 1000 then 0 else st.moveCount) < 10 ∧
        ¬(now - st.lastMoveTime < (if dashing = true then MOVE_RATE_LIMIT / 4 else MOVE_RATE_LIMIT))) := by
  simp only [serverMoveGate]
  split_ifs <;> simp_all <;> omega

/-- Explicit acceptance condition of the client move gate. -/
theorem clientMoveGate_accepts (st : RateLimiterState) (now : ℚ) (dashing : Bool) :
    (clientMoveGate st now dashing).1 = true ↔
      ((if now - st.moveCountResetTime ≥ 1000 then 0 else st.moveCount) < 10 ∧
        ¬(now - st.lastMoveTime <
          (if dashing = true then CLIENT_MOVE_RATE_LIMIT / 4 else CLIENT_MOVE_RATE_LIMIT))) := by
  simp only [clientMoveGate]
  split_ifs <;> simp_all <;> omega

/-- Claim C3 (amended): the two limiters share the same structure — the
same trailing 1-second window cap of 10 and a minimum interval divided by
4 while dashing — and any command the client gate accepts the server gate
also accepts from the same limiter state; but the minimum intervals differ
(client 100 ms, server 70 ms), so acceptance is one-directional, not an
equivalence. -/
theorem C3_gate_refinement (st : RateLimiterState) (now : ℚ) (dashing : Bool) :
    ((clientMoveGate st now dashing).1 = true → (serverMoveGate st now dashing).1 = true) ∧
      (¬(now - st.moveCountResetTime ≥ 1000) → st.moveCount ≥ 10 →
        (serverMoveGate st now dashing).1 = false ∧ (clientMoveGate st now dashing).1 = false) := by
  have hlim : (if dashing = true then MOVE_RATE_LIMIT / 4 else MOVE_RATE_LIMIT) ≤
      (if dashing = true then CLIENT_MOVE_RATE_LIMIT / 4 else CLIENT_MOVE_RATE_LIMIT) := by
    cases dashing <;> norm_num [MOVE_RATE_LIMIT, CLIENT_MOVE_RATE_LIMIT]
  constructor
  · intro hc
    rw [clientMoveGate_accepts] at hc
    rw [serverMoveGate_accepts]
    exact ⟨hc.1, fun hbad => hc.2 (lt_of_lt_of_le hbad hlim)⟩
  · intro hw hcnt
    constructor
    · rw [← Bool.not_eq_true, serverMoveGate_accepts, if_neg hw]
      intro h
      omega
    · rw [← Bool.not_eq_true, clientMoveGate_accepts, if_neg hw]
      intro h
      omega

-- Witness for C3: from a fresh limiter state at time 150 ms (not
-- dashing), the client gate accepts, hence so does the server gate.
unseal Rat.add Rat.sub Rat.mul Rat.inv in
theorem C3_gate_refinement_witness :
    (serverMoveGate ⟨0, 0, 0⟩ 150 false).1 = true :=
  (C3_gate_refinement ⟨0, 0, 0⟩ 150 false).1 (by decide)

/-- If every participant other than the excluded one standing on the cell
is dead, the occupancy probe finds nobody. -/
theorem getPlayerAtPosition_eq_none (gs : GameState) (x y : Int) (pid : String)
    (hocc : ∀ e ∈ gs, e.1 ≠ pid → e.2.x = x → e.2.y = y → e.2.isDead = true) :
    getPlayerAtPosition gs x y (some pid) = none := by
  unfold getPlayerAtPosition
  rw [List.find?_eq_none.mpr]
  · rfl
  · intro e he
    by_cases h1 : e.1 = pid
    · simp [h1]
    · by_cases h2 : e.2.x = x
      · by_cases h3 : e.2.y = y
        · simp [h1, h2, h3, hocc e he h1 h2 h3]
        · simp [h1, h2, h3]
      · simp [h1, h2]

/-- What a successful occupancy probe guarantees about the found player:
it is live, stands on the queried cell, and is stored in the registry
under a key other than the excluded one. -/
theorem getPlayerAtPosition_eq_some (gs : GameState) (x y : Int) (ex : Option String)
    (q : Player) (h : getPlayerAtPosition gs x y ex = some q) :
    q.isDead = false ∧ q.x = x ∧ q.y = y ∧ ∃ k, (k, q) ∈ gs ∧ some k ≠ ex := by
  unfold getPlayerAtPosition at h
  cases hf : gs.find? (fun e =>
      !(some e.1 = ex) && !e.2.isDead && e.2.x = x && e.2.y = y) with
  | none => rw [hf] at h; simp at h
  | some e =>
    rw [hf] at h
    have he2 : e.2 = q := by simpa using h
    have hpred := List.find?_some hf
    have hmem := List.mem_of_find?_eq_some hf
    simp only [Bool.and_eq_true, Bool.not_eq_true', decide_eq_true_eq, decide_eq_false_iff_not] at hpred
    exact ⟨he2 ▸ hpred.1.1.2, he2 ▸ hpred.1.2, he2 ▸ hpred.2,
      e.1, by rw [← he2]; exact hmem, by simpa using hpred.1.1.1⟩

/-- With no duplicate keys, a stored entry is found by lookup. -/
theorem lookupP_of_mem (gs : GameState) (k : String) (q : Player)
    (hmem : (k, q) ∈ gs) (hnd : (gs.map Prod.fst).Nodup) : lookupP gs k = some q := by
  induction gs with
  | nil => cases hmem
  | cons e t ih =>
    rcases List.mem_cons.mp hmem with heq | ht
    · rw [← heq]
      simp [lookupP, List.find?_cons_of_pos]
    · have hk : e.1 ≠ k := by
        intro hek
        have : k ∈ t.map Prod.fst := List.mem_map.mpr ⟨(k, q), ht, rfl⟩
        rw [List.map_cons, List.nodup_cons] at hnd
        exact hnd.1 (hek ▸ this)
      unfold lookupP
      rw [List.find?_cons_of_neg _ (by simpa using hk)]
      exact ih ht (by rw [List.map_cons, List.nodup_cons] at hnd; exact hnd.2)

/-- Claim C6: a cell whose only occupants (other than the mover) are dead
is treated as empty: the move succeeds, relocates the mover there, and no
other participant's record changes (no damage is dealt). -/
theorem C6_dead_cell_is_empty (grid : Grid) (gs : GameState) (pid : String) (a : Dir)
    (now : ℚ) (p : Player) (tx ty : Int)
    (hp : lookupP gs pid = some p)
    (hdead : p.isDead = false) (hcast : p.isCastingMana = false)
    (hdashblock : dashBlocked p a now = false)
    (hcur : isWall grid p.x p.y = false)
    (htxy : moveTarget p.x p.y a = (tx, ty))
    (hb : tx ≥ 0 ∧ tx < WORLD_WIDTH ∧ ty ≥ 0 ∧ ty < WORLD_HEIGHT ∧ isWall grid tx ty = false)
    (hocc : ∀ e ∈ gs, e.1 ≠ pid → e.2.x = tx → e.2.y = ty → e.2.isDead = true) :
    (processMovement grid gs pid a now).1.success = true ∧
      (processMovement grid gs pid a now).1.collision = false ∧
      lookupP (processMovement grid gs pid a now).2 pid
        = some { p with x := tx, y := ty, targetX := tx, targetY := ty } ∧
      ∀ j, j ≠ pid → lookupP (processMovement grid gs pid a now).2 j = lookupP gs j := by
  have hnone := getPlayerAtPosition_eq_none gs tx ty pid hocc
  simp only [processMovement, hp]
  rw [if_neg (by simp [hdead]), if_neg (by simp [hcast]), if_neg (by simp [hdashblock]),
    if_neg (by simp [hcur])]
  simp only [htxy]
  rw [if_pos hb, hnone, if_neg (by simp [hb.2.2.2.2])]
  refine ⟨rfl, rfl, ?_, ?_⟩
  · rw [lookupP_updateById, if_pos rfl, hp]
    rfl
  · intro j hj
    rw [lookupP_updateById, if_neg hj]

-- Witness for C6: a dead participant lies at (6, 5); the mover at (5, 5)
-- moves right onto the corpse cell and relocates, nobody takes damage.
unseal Rat.add Rat.sub Rat.mul Rat.inv in
theorem C6_dead_cell_is_empty_witness :
    (processMovement sampleGrid
        [("a", samplePlayer "a" 5 5), ("b", { samplePlayer "b" 6 5 with health := 0, isDead := true })]
        "a" Dir.MOVE_RIGHT 10).1.success = true ∧
      lookupP (processMovement sampleGrid
          [("a", samplePlayer "a" 5 5), ("b", { samplePlayer "b" 6 5 with health := 0, isDead := true })]
          "a" Dir.MOVE_RIGHT 10).2 "b"
        = lookupP [("a", samplePlayer "a" 5 5),
            ("b", { samplePlayer "b" 6 5 with health := 0, isDead := true })] "b" :=
  ⟨(C6_dead_cell_is_empty sampleGrid
      [("a", samplePlayer "a" 5 5), ("b", { samplePlayer "b" 6 5 with health := 0, isDead := true })]
      "a" Dir.MOVE_RIGHT 10 (samplePlayer "a" 5 5) 6 5
      (by decide) (by decide) (by decide) (by decide) (by decide) (by decide) (by decide)
      (by decide)).1,
    (C6_dead_cell_is_empty sampleGrid
      [("a", samplePlayer "a" 5 5), ("b", { samplePlayer "b" 6 5 with health := 0, isDead := true })]
      "a" Dir.MOVE_RIGHT 10 (samplePlayer "a" 5 5) 6 5
      (by decide) (by decide) (by decide) (by decide) (by decide) (by decide) (by decide)
      (by decide)).2.2.2 "b" (by decide)⟩

/-- Claim C2: a move into a cell occupied by another live participant
never relocates the mover; it decrements the occupant's health by exactly
1 and stamps the attacker's lastHitTime iff the hit cooldown has elapsed
(now - lastHitTime >= HIT_COOLDOWN), and in both cases the occupant's
position is untouched. -/
theorem C2_collision_damage (grid : Grid) (gs : GameState) (pid : String) (a : Dir)
    (now : ℚ) (p v : Player) (tx ty : Int)
    (hp : lookupP gs pid = some p)
    (hdead : p.isDead = false) (hcast : p.isCastingMana = false)
    (hdashblock : dashBlocked p a now = false)
    (hcur : isWall grid p.x p.y = false)
    (htxy : moveTarget p.x p.y a = (tx, ty))
    (hb : tx ≥ 0 ∧ tx < WORLD_WIDTH ∧ ty ≥ 0 ∧ ty < WORLD_HEIGHT ∧ isWall grid tx ty = false)
    (hvic : getPlayerAtPosition gs tx ty (some pid) = some v)
    (hwf : ∀ e ∈ gs, e.2.id = e.1)
    (hnd : (gs.map Prod.fst).Nodup)
    (hvh : 0 < v.health) :
    (processMovement grid gs pid a now).1.success = false ∧
      (processMovement grid gs pid a now).1.collision = true ∧
      (now - p.lastHitTime ≥ HIT_COOLDOWN →
        (processMovement grid gs pid a now).1.damageDealt = true ∧
          lookupP (processMovement grid gs pid a now).2 pid = some { p with lastHitTime := now } ∧
          lookupP (processMovement grid gs pid a now).2 v.id = some (dealDamageToPlayer v now 1) ∧
          (dealDamageToPlayer v now 1).health = v.health - 1 ∧
          (dealDamageToPlayer v now 1).x = v.x ∧ (dealDamageToPlayer v now 1).y = v.y) ∧
      (¬(now - p.lastHitTime ≥ HIT_COOLDOWN) →
        (processMovement grid gs pid a now).1.damageDealt = false ∧
          (processMovement grid gs pid a now).2 = gs) := by
  obtain ⟨hvdead, hvx, hvy, k, hkmem, hkne⟩ := getPlayerAtPosition_eq_some gs tx ty (some pid) v hvic
  have hkid : v.id = k := hwf (k, v) hkmem
  have hvpid : v.id ≠ pid := by
    rw [hkid]
    intro h
    exact hkne (by rw [h])
  have hlookv : lookupP gs v.id = some v := hkid ▸ lookupP_of_mem gs k v hkmem hnd
  have hdd_health : (dealDamageToPlayer v now 1).health = v.health - 1 := by
    simp only [dealDamageToPlayer]
    split_ifs <;> simp <;> omega
  have hdd_x : (dealDamageToPlayer v now 1).x = v.x := by
    simp only [dealDamageToPlayer]
    split_ifs <;> rfl
  have hdd_y : (dealDamageToPlayer v now 1).y = v.y := by
    simp only [dealDamageToPlayer]
    split_ifs <;> rfl
  simp only [processMovement, hp]
  rw [if_neg (by simp [hdead]), if_neg (by simp [hcast]), if_neg (by simp [hdashblock]),
    if_neg (by simp [hcur])]
  simp only [htxy]
  rw [if_pos hb]
  simp only [hvic]
  split_ifs with hcool
  · refine ⟨rfl, rfl, fun _ => ⟨rfl, ?_, ?_, hdd_health, hdd_x, hdd_y⟩, fun hnc => absurd hcool hnc⟩
    · rw [lookupP_updateById, if_pos rfl, lookupP_updateById, if_neg (fun h => hvpid h.symm), hp]
      rfl
    · rw [lookupP_updateById, if_neg hvpid, lookupP_updateById, if_pos rfl, hlookv]
      rfl
  · exact ⟨rfl, rfl, fun hc => absurd hc hcool, fun _ => ⟨rfl, rfl⟩⟩

-- Witness for C2: attacker at (5, 5) moves right into the live occupant
-- at (6, 5) with the hit cooldown elapsed; the occupant drops to health 2.
unseal Rat.add Rat.sub Rat.mul Rat.inv in
theorem C2_collision_damage_witness :
    (processMovement sampleGrid [("a", samplePlayer "a" 5 5), ("b", samplePlayer "b" 6 5)]
        "a" Dir.MOVE_RIGHT 10).1.collision = true ∧
      lookupP (processMovement sampleGrid
          [("a", samplePlayer "a" 5 5), ("b", samplePlayer "b" 6 5)]
          "a" Dir.MOVE_RIGHT 10).2 "b"
        = some (dealDamageToPlayer (samplePlayer "b" 6 5) 10 1) ∧
      (dealDamageToPlayer (samplePlayer "b" 6 5) 10 1).health = (samplePlayer "b" 6 5).health - 1 :=
  ⟨(C2_collision_damage sampleGrid [("a", samplePlayer "a" 5 5), ("b", samplePlayer "b" 6 5)]
      "a" Dir.MOVE_RIGHT 10 (samplePlayer "a" 5 5) (samplePlayer "b" 6 5) 6 5
      (by decide) (by decide) (by decide) (by decide) (by decide) (by decide) (by decide)
      (by decide) (by decide) (by decide) (by decide)).2.1,
   ((C2_collision_damage sampleGrid [("a", samplePlayer "a" 5 5), ("b", samplePlayer "b" 6 5)]
      "a" Dir.MOVE_RIGHT 10 (samplePlayer "a" 5 5) (samplePlayer "b" 6 5) 6 5
      (by decide) (by decide) (by decide) (by decide) (by decide) (by decide) (by decide)
      (by decide) (by decide) (by decide) (by decide)).2.2.1 (by decide)).2.2.1,
   ((C2_collision_damage sampleGrid [("a", samplePlayer "a" 5 5), ("b", samplePlayer "b" 6 5)]
      "a" Dir.MOVE_RIGHT 10 (samplePlayer "a" 5 5) (samplePlayer "b" 6 5) 6 5
      (by decide) (by decide) (by decide) (by decide) (by decide) (by decide) (by decide)
      (by decide) (by decide) (by decide) (by decide)).2.2.1 (by decide)).2.2.2.1⟩

-- Counterexample for C1: the updateHealth command sets health to 0 on a
-- live participant without touching isDead, so right after this
-- operation the registry holds a record with health = 0 and isDead =
-- false.
theorem C1_counterexample :
    lookupP (updateHealth [("a", samplePlayer "a" 5 5)] "a" 0).1 "a"
        = some { samplePlayer "a" 5 5 with health := 0 } ∧
      ({ samplePlayer "a" 5 5 with health := 0 }).health = 0 ∧
      ({ samplePlayer "a" 5 5 with health := 0 }).isDead = false :=
  ⟨by decide, by decide, by decide⟩

/-- Claim C1 (amended): `isDead = true` iff `health = 0` is preserved by
collision damage (`dealDamageToPlayer`), by cast-heal completion provided
the caster is alive, and is (re)established by respawn; the `updateHealth`
command, however, writes health without touching `isDead` and can break
the equivalence (see the counterexample), so the invariant does not hold
after every operation that can change health. -/
theorem C1_health_death_invariant :
    (∀ (p : Player) (now : ℚ), healthDeathInv p → 0 ≤ p.health →
        healthDeathInv (dealDamageToPlayer p now 1)) ∧
      (∀ p : Player, healthDeathInv p → p.isDead = false → 0 ≤ p.health →
        healthDeathInv (manaCastComplete p)) ∧
      (∀ (grid : Grid) (p : Player), healthDeathInv (respawnReset grid p)) := by
  refine ⟨?_, ?_, ?_⟩
  · intro p now hinv hh
    unfold healthDeathInv at hinv ⊢
    simp only [dealDamageToPlayer]
    split_ifs with h
    · simp only [Bool.and_eq_true, Bool.not_eq_true', decide_eq_true_eq] at h
      have hz : (0 : Int) ⊔ (p.health - 1) = 0 := le_antisymm h.1 (le_max_left 0 _)
      simp [hz]
    · simp only [Bool.and_eq_true, Bool.not_eq_true', decide_eq_true_eq, not_and_or, not_le,
        Bool.not_eq_false] at h
      show p.isDead = true ↔ 0 ⊔ (p.health - 1) = 0
      rcases h with h | h
      · constructor
        · intro hd
          rw [hinv.mp hd] at h
          simp at h
        · intro hz
          rw [hz] at h
          exact absurd h (lt_irrefl 0)
      · rw [hinv.mp h]
        simp [h]
  · intro p hinv hdead hh
    unfold healthDeathInv at hinv ⊢
    simp only [manaCastComplete]
    split_ifs with h
    · show p.isDead = true ↔ min MAX_HEALTH (p.health + 1) = 0
      constructor
      · intro hc
        rw [hdead] at hc
        cases hc
      · intro hz
        have h1 : (0 : Int) < min MAX_HEALTH (p.health + 1) :=
          lt_min (by norm_num [MAX_HEALTH]) (by omega)
        rw [hz] at h1
        exact absurd h1 (lt_irrefl 0)
    · exact hinv
  · intro grid p
    unfold healthDeathInv respawnReset
    simp [MAX_HEALTH]

-- Witness for C1: collision damage on the live full-health baseline
-- participant keeps health and isDead coupled.
theorem C1_health_death_invariant_witness :
    healthDeathInv (dealDamageToPlayer (samplePlayer "a" 5 5) 10 1) :=
  C1_health_death_invariant.1 (samplePlayer "a" 5 5) 10
    (by simp [healthDeathInv, samplePlayer]) (by decide)

-- Counterexample for C4: the observer is told about the dashing
-- participant at tick time 10.2 (dashEndTime 10.3 still active, so the
-- diff carries it); by the next tick at 10.5 the dash window has
-- expired, yet that tick's diff is EMPTY — dashEndTime is omitted at the
-- expiry edge instead of appearing as a literal 0 (the cache never
-- stores dashEndTime, and the stale isDashing comparison does not fire
-- until one tick later).
unseal Rat.add Rat.sub Rat.mul Rat.inv in
theorem C4_counterexample :
    ((syncStep [("p", dashExpiryPlayer)] "o" [] (mkRat 51 5)).1.map
        (fun d => (d.id, d.dashEndTime)) = [("p", some (mkRat 103 10))]) ∧
      mkRat 103 10 > mkRat 51 5 ∧ ¬(mkRat 103 10 > mkRat 21 2) ∧
      (syncStep (syncStep [("p", dashExpiryPlayer)] "o" [] (mkRat 51 5)).2.1 "o"
          (syncStep [("p", dashExpiryPlayer)] "o" [] (mkRat 51 5)).2.2 (mkRat 21 2)).1 = [] :=
  ⟨by decide, by decide, by decide, by decide⟩

/-- Lookup is unchanged at other keys by a keyed cache replacement. -/
theorem lookupC_mapReplace_ne (cache : List (String × CachedState)) (pid j : String)
    (c : CachedState) (hne : j ≠ pid) :
    lookupC (cache.map (fun e => if e.1 = pid then (e.1, c) else e)) j = lookupC cache j := by
  induction cache with
  | nil => rfl
  | cons e t ih =>
    unfold lookupC at *
    rw [List.map_cons]
    by_cases hep : e.1 = pid
    · have hej : ¬(e.1 = j) := fun hh => hne (hh.symm.trans hep)
      rw [if_pos hep, List.find?_cons_of_neg _ (by simpa using hej),
        List.find?_cons_of_neg _ (by simpa using hej)]
      exact ih
    · rw [if_neg hep]
      by_cases hej : e.1 = j
      · rw [List.find?_cons_of_pos _ (by simpa using hej),
          List.find?_cons_of_pos _ (by simpa using hej)]
      · rw [List.find?_cons_of_neg _ (by simpa using hej),
          List.find?_cons_of_neg _ (by simpa using hej)]
        exact ih

/-- Lookup at the replaced key returns the new record, provided the key
is present. -/
theorem lookupC_mapReplace_pos (cache : List (String × CachedState)) (pid : String)
    (c : CachedState) (h : cache.any (fun e => e.1 = pid) = true) :
    lookupC (cache.map (fun e => if e.1 = pid then (e.1, c) else e)) pid = some c := by
  induction cache with
  | nil => simp at h
  | cons e t ih =>
    unfold lookupC at *
    rw [List.map_cons]
    by_cases hep : e.1 = pid
    · rw [if_pos hep, List.find?_cons_of_pos _ (by simpa using hep)]
      rfl
    · rw [if_neg hep, List.find?_cons_of_neg _ (by simpa using hep)]
      refine ih ?_
      rw [List.any_cons] at h
      rcases Bool.or_eq_true_iff.mp h with h1 | h1
      · exact absurd (by simpa using h1) hep
      · exact h1

/-- The id of a diff entry is the participant's id. -/
theorem deltaFields_id (last : Option CachedState) (p : Player) (now : ℚ) :
    (deltaFields last p now).id = p.id := by
  simp only [deltaFields]
  split_ifs <;> rfl

/-- A cached entry implies the key is present. -/
theorem lookupC_any (cache : List (String × CachedState)) (pid : String) (l : CachedState)
    (h : lookupC cache pid = some l) : cache.any (fun c => c.1 = pid) = true := by
  unfold lookupC at h
  cases hf : cache.find? (fun c => c.1 = pid) with
  | none => rw [hf] at h; simp at h
  | some e =>
    have h1 := @List.find?_some (String × CachedState)
      (fun c : String × CachedState => decide (c.1 = pid)) e cache hf
    exact List.any_eq_true.mpr ⟨e, List.mem_of_find?_eq_some hf, h1⟩

/-- The diff an observer tick emits for a single other participant. -/
theorem syncStep_singleton_deltas (pid obs : String) (p : Player)
    (cache : List (String × CachedState)) (now : ℚ) (h : pid ≠ obs) :
    (syncStep [(pid, p)] obs cache now).1
      = if hasChangedB (lookupC cache pid) p now = true
        then [deltaFields (lookupC cache pid) p now] else [] := by
  unfold syncStep getGameStateSnapshotDelta deltaForPlayer
  simp only [List.map_cons, List.map_nil, if_neg h]
  split_ifs with hch <;> simp [List.filterMap]

/-- The cache an observer tick leaves behind for a single other
participant that was included in the diff. -/
theorem syncStep_singleton_cache (pid obs : String) (p : Player)
    (cache : List (String × CachedState)) (now : ℚ) (h : pid ≠ obs)
    (hch : hasChangedB (lookupC cache pid) p now = true) (hid : p.id = pid) :
    (syncStep [(pid, p)] obs cache now).2.2
      = setCache cache pid (cacheEntry ((deltaForPlayer (lookupC cache pid) p now).2) now) := by
  unfold syncStep getGameStateSnapshotDelta updateLastSentState deltaForPlayer
  simp only [List.map_cons, List.map_nil, if_neg h, if_pos hch, List.filterMap,
    List.foldl_cons, List.foldl_nil]
  rw [if_neg (by simp), if_pos (by simp [deltaFields_id, hid])]

/-- Claim C4 (amended): for an observed participant, the cooldown fields
`dashCooldownEndTime` and `manaCooldownEndTime` obey expiry telegraphing:
if the observer's cache holds the field as active (positive) and it has
expired by the current tick, that tick's diff contains the participant
with the field as a literal 0 and stores 0 in the cache; once the cache
holds 0 and the field is still expired, no later diff carries the field
again (as 0 or otherwise) until it becomes active again. The same is NOT
true of `dashEndTime` (see the counterexample): the cache never stores
it, so at its expiry edge the participant can be omitted entirely, and
the 0 is re-sent on every later diff while the stale timestamp remains. -/
theorem C4_cooldown_expiry_telegraph (pid obs : String) (p : Player)
    (cache : List (String × CachedState)) (l : CachedState) (now : ℚ)
    (hobs : pid ≠ obs) (hl : lookupC cache pid = some l) (hid : p.id = pid) :
    (l.dashCooldownEndTime > 0 → ¬(p.dashCooldownEndTime > now) →
      (syncStep [(pid, p)] obs cache now).1
          = [deltaFields (some l) p now] ∧
        (deltaFields (some l) p now).dashCooldownEndTime = some 0 ∧
        ∃ c, lookupC (syncStep [(pid, p)] obs cache now).2.2 pid = some c ∧
          c.dashCooldownEndTime = 0) ∧
    (l.dashCooldownEndTime = 0 → ¬(p.dashCooldownEndTime > now) →
      ∀ d ∈ (syncStep [(pid, p)] obs cache now).1, d.dashCooldownEndTime = none) ∧
    (l.manaCooldownEndTime > 0 → ¬(p.manaCooldownEndTime > now) →
      (syncStep [(pid, p)] obs cache now).1
          = [deltaFields (some l) p now] ∧
        (deltaFields (some l) p now).manaCooldownEndTime = some 0 ∧
        ∃ c, lookupC (syncStep [(pid, p)] obs cache now).2.2 pid = some c ∧
          c.manaCooldownEndTime = 0) ∧
    (l.manaCooldownEndTime = 0 → ¬(p.manaCooldownEndTime > now) →
      ∀ d ∈ (syncStep [(pid, p)] obs cache now).1, d.manaCooldownEndTime = none) := by
  have hany := lookupC_any cache pid l hl
  refine ⟨?_, ?_, ?_, ?_⟩
  · intro hcd hexp
    have hexpB : dashCooldownExpiredB (some l) p now = true := by
      simp [dashCooldownExpiredB, hexp, ne_of_gt hcd, hcd]
    have hch : hasChangedB (some l) p now = true := by
      simp [hasChangedB, hexpB]
    have hchl : hasChangedB (lookupC cache pid) p now = true := by rw [hl]; exact hch
    refine ⟨?_, ?_, ?_⟩
    · rw [syncStep_singleton_deltas pid obs p cache now hobs, if_pos hchl, hl]
    · rw [deltaFields_dashCooldown, if_neg hexp, if_pos hexpB]
    · refine ⟨cacheEntry ((deltaForPlayer (lookupC cache pid) p now).2) now, ?_, ?_⟩
      · rw [syncStep_singleton_cache pid obs p cache now hobs hchl hid]
        unfold setCache
        rw [if_pos hany]
        exact lookupC_mapReplace_pos cache pid _ hany
      · rw [hl]
        unfold deltaForPlayer cacheEntry
        simp only []
        rw [if_neg hexp]
  · intro hz hexp
    intro d hd
    rw [syncStep_singleton_deltas pid obs p cache now hobs] at hd
    by_cases hch : hasChangedB (lookupC cache pid) p now = true
    · rw [if_pos hch] at hd
      have hd' : d = deltaFields (lookupC cache pid) p now := by simpa using hd
      subst hd'
      rw [hl, deltaFields_dashCooldown, if_neg hexp,
        if_neg (by simp [dashCooldownExpiredB, hz])]
    · rw [if_neg hch] at hd
      simp at hd
  · intro hcd hexp
    have hexpB : manaCooldownExpiredB (some l) p now = true := by
      simp [manaCooldownExpiredB, hexp, ne_of_gt hcd, hcd]
    have hch : hasChangedB (some l) p now = true := by
      simp [hasChangedB, hexpB]
    have hchl : hasChangedB (lookupC cache pid) p now = true := by rw [hl]; exact hch
    refine ⟨?_, ?_, ?_⟩
    · rw [syncStep_singleton_deltas pid obs p cache now hobs, if_pos hchl, hl]
    · rw [deltaFields_manaCooldown, if_neg hexp, if_pos hexpB]
    · refine ⟨cacheEntry ((deltaForPlayer (lookupC cache pid) p now).2) now, ?_, ?_⟩
      · rw [syncStep_singleton_cache pid obs p cache now hobs hchl hid]
        unfold setCache
        rw [if_pos hany]
        exact lookupC_mapReplace_pos cache pid _ hany
      · rw [hl]
        unfold deltaForPlayer cacheEntry
        simp only []
        rw [if_neg hexp]
  · intro hz hexp
    intro d hd
    rw [syncStep_singleton_deltas pid obs p cache now hobs] at hd
    by_cases hch : hasChangedB (lookupC cache pid) p now = true
    · rw [if_pos hch] at hd
      have hd' : d = deltaFields (lookupC cache pid) p now := by simpa using hd
      subst hd'
      rw [hl, deltaFields_manaCooldown, if_neg hexp,
        if_neg (by simp [manaCooldownExpiredB, hz])]
    · rw [if_neg hch] at hd
      simp at hd

-- Witness for C4: the dash cooldown (ended 10.1) was active in the
-- observer's cache and has expired by tick time 10.5; that tick's diff
-- carries the participant with dashCooldownEndTime = 0 and the cache is
-- zeroed.
unseal Rat.add Rat.sub Rat.mul Rat.inv in
theorem C4_cooldown_expiry_telegraph_witness :
    (syncStep [("p", cooldownExpiredPlayer)] "o" [("p", cooldownActiveCache)] (mkRat 21 2)).1
        = [deltaFields (some cooldownActiveCache) cooldownExpiredPlayer (mkRat 21 2)] ∧
      (deltaFields (some cooldownActiveCache) cooldownExpiredPlayer
          (mkRat 21 2)).dashCooldownEndTime = some 0 ∧
      ∃ c, lookupC (syncStep [("p", cooldownExpiredPlayer)] "o"
            [("p", cooldownActiveCache)] (mkRat 21 2)).2.2 "p" = some c ∧
        c.dashCooldownEndTime = 0 :=
  (C4_cooldown_expiry_telegraph "p" "o" cooldownExpiredPlayer
      [("p", cooldownActiveCache)] cooldownActiveCache (mkRat 21 2)
      (by decide) (by decide) (by decide)).1 (by decide) (by decide)

end Realm
